import Mathlib

/-!
Shallow embedding of src/main.py (coverage-api): the KMZ/KML loader
(CoverageChecker.load_kmz_manually with its helper parse_coords_string),
the index build (CoverageChecker.__init__), and the query
(CoverageChecker.check_point).

Modelling conventions:
- Python floats are modelled as exact rationals.
- The two geometry-library calls made by check_point, namely shapely polygon
  containment (self.polygons.contains) and the EPSG:3857 projected distance
  (to_crs followed by .distance), are transcendental library functions, so
  check_point is parameterized over them; all control flow, indexing and
  arithmetic around them is translated directly from the source.
- pandas label semantics are modelled explicitly: gdf rows carry their
  RangeIndex label, boolean-mask subsets keep the original labels,
  Series.idxmin returns the label of the first minimum, and .iloc is
  positional (an out-of-range position is the IndexError, modelled as
  Except.error).
- A raised Python exception is modelled as Except.error.
-/

namespace CoverageApi

/-- Longitude/latitude pair; shapely Point(lon, lat) stores x = lon, y = lat. -/
structure GeomPoint where
  lon : ℚ
  lat : ℚ
deriving DecidableEq

/-- Tagged geometry union; the loader only ever builds Point and Polygon. -/
inductive Geometry where
  | point (p : GeomPoint)
  | polygon (ring : List GeomPoint)
deriving DecidableEq

/-- One row of the GeoDataFrame built by load_kmz_manually. -/
structure GeometryRecord where
  name : String
  description : String
  geometry : Geometry
deriving DecidableEq

/-- geopandas geom_type string of a loader-produced geometry. -/
def geom_type : Geometry → String
  | .point _ => "Point"
  | .polygon _ => "Polygon"

/-- The CoverageChecker state: the loaded frame and its two partitions.
Rows keep their original gdf integer labels (the default RangeIndex),
because pandas boolean-mask selection preserves labels. -/
structure CoverageChecker where
  gdf : List GeometryRecord
  polygons : List (ℕ × GeometryRecord)
  points : List (ℕ × GeometryRecord)
deriving DecidableEq

/-- CoverageChecker.__init__ after the load: if the frame is empty both
partitions are empty frames, otherwise partition the rows by geom_type. -/
def CoverageChecker.init (gdf : List GeometryRecord) : CoverageChecker :=
  if gdf.isEmpty then
    { gdf := gdf, polygons := [], points := [] }
  else
    { gdf := gdf
      polygons := gdf.enum.filter fun r => ["Polygon", "MultiPolygon"].contains (geom_type r.2.geometry)
      points := gdf.enum.filter fun r => ["Point", "MultiPoint"].contains (geom_type r.2.geometry) }

/-- Module-level configuration constant COVERAGE_RADIUS_KM = 5.0. -/
def COVERAGE_RADIUS_KM : ℚ := 5

/-- One comma-separated component of a coordinate tuple, as seen by Python
float(): either a numeric literal with value q, or a non-numeric string on
which float() raises ValueError. -/
inductive Comp where
  | numeric (q : ℚ)
  | nonNumeric
deriving DecidableEq

/-- Python float() applied to one component. -/
def pyFloat : Comp → Except Unit ℚ
  | .numeric q => .ok q
  | .nonNumeric => .error ()

/-- CoverageChecker.parse_coords_string.  The input is the coordinate text
already split on whitespace and then on commas.  For every tuple with at
least two components the pair (float(parts[0]), float(parts[1])) is
appended; shorter tuples are skipped; a ValueError raised by float()
aborts the whole call (the exception propagates to the caller). -/
def parse_coords_string : List (List Comp) → Except Unit (List (ℚ × ℚ))
  | [] => .ok []
  | parts :: raw_points =>
    match parts with
    | c0 :: c1 :: _ =>
      match pyFloat c0 with
      | .error e => .error e
      | .ok x =>
        match pyFloat c1 with
        | .error e => .error e
        | .ok y =>
          match parse_coords_string raw_points with
          | .error e => .error e
          | .ok coords => .ok ((x, y) :: coords)
    | _ => parse_coords_string raw_points

/-- A coordinates text node, pre-tokenized into whitespace-separated tuples
of comma-separated components. -/
structure CoordTag where
  text : List (List Comp)
deriving DecidableEq

/-- A Point element (may lack its coordinates child). -/
structure PointTag where
  coordinates : Option CoordTag
deriving DecidableEq

/-- An outerBoundaryIs element (may lack its coordinates child). -/
structure OuterBoundaryIs where
  coordinates : Option CoordTag
deriving DecidableEq

/-- A Polygon element (may lack its outerBoundaryIs child). -/
structure PolygonTag where
  outerBoundaryIs : Option OuterBoundaryIs
deriving DecidableEq

/-- A KML Placemark element as seen by the loader through BeautifulSoup. -/
structure Placemark where
  name : Option String
  description : Option String
  point : Option PointTag
  polygon : Option PolygonTag
deriving DecidableEq

/-- Body of the per-placemark try-block in load_kmz_manually.  Except.error
models an exception escaping to the per-element handler; .ok none is a
placemark that produced no usable geometry. -/
def processPlacemark (p : Placemark) : Except Unit (Option GeometryRecord) :=
  let nm := p.name.getD ("Unknown")
  let ds := p.description.getD ("")
  let geomAfterPoint : Except Unit (Option Geometry) :=
    match p.point with
    | some point_tag =>
      match point_tag.coordinates with
      | some coords_tag =>
        match parse_coords_string coords_tag.text with
        | .error e => .error e
        | .ok (c :: _) => .ok (some (Geometry.point { lon := c.1, lat := c.2 }))
        | .ok [] => .ok none
      | none => .ok none
    | none => .ok none
  match geomAfterPoint with
  | .error e => .error e
  | .ok geometry1 =>
    match p.polygon with
    | some poly_tag =>
      match poly_tag.outerBoundaryIs with
      | some outer =>
        match outer.coordinates with
        | some coords_tag =>
          match parse_coords_string coords_tag.text with
          | .error e => .error e
          | .ok coords =>
            if 3 ≤ coords.length then
              .ok (some { name := nm, description := ds,
                          geometry := Geometry.polygon (coords.map fun c => { lon := c.1, lat := c.2 }) })
            else
              .ok (geometry1.map fun g => { name := nm, description := ds, geometry := g })
        | none => .ok (geometry1.map fun g => { name := nm, description := ds, geometry := g })
      | none => .ok (geometry1.map fun g => { name := nm, description := ds, geometry := g })
    | none => .ok (geometry1.map fun g => { name := nm, description := ds, geometry := g })

/-- One iteration of the placemark loop: the except/continue handler drops
the element on any exception. -/
def loadFeature (p : Placemark) : Option GeometryRecord :=
  match processPlacemark p with
  | .ok r => r
  | .error _ => none

/-- One archive member: its name in the directory listing and the placemarks
BeautifulSoup would find in its content. -/
structure ArchiveEntry where
  name : String
  placemarks : List Placemark
deriving DecidableEq

/-- A readable KMZ archive: its directory listing in order. -/
structure Archive where
  entries : List ArchiveEntry
deriving DecidableEq

/-- Archive-level failure of the loader. -/
inductive LoadError where
  | fileNotFound
deriving DecidableEq

/-- Python str.endswith, modelled on the character lists of the strings. -/
def strEndsWith (s suff : String) : Bool := suff.toList.isSuffixOf s.toList

/-- CoverageChecker.load_kmz_manually.  The Option input models
os.path.exists: none means the file is missing (FileNotFoundError).
Otherwise the first entry whose name ends in .kml is parsed; if there is
none the result is an empty frame. -/
def load_kmz_manually (input : Option Archive) : Except LoadError (List GeometryRecord) :=
  match input with
  | none => .error .fileNotFound
  | some z =>
    match z.entries.filter (fun f => strEndsWith f.name (".kml")) with
    | [] => .ok []
    | kml_file :: _ => .ok (kml_file.placemarks.filterMap loadFeature)

/-- The details dict returned for a hit (geometry key already stripped).
distance_km = none models the key being absent. -/
structure MatchDetails where
  name : String
  description : String
  match_type : String
  distance_km : Option ℚ
deriving DecidableEq

/-- Polygon pass of check_point: matches = self.polygons.contains(user_point);
if any, hit = self.polygons[matches].iloc[0], i.e. the first row of the
polygon partition whose geometry contains the user point. -/
def polyStep (shContains : Geometry → GeomPoint → Bool) (c : CoverageChecker)
    (user : GeomPoint) : Option (ℕ × GeometryRecord) :=
  if c.polygons.isEmpty then none
  else c.polygons.find? fun r => shContains r.2.geometry user

/-- distances = points_proj.distance(user_point_proj): a pandas Series of
(label, meters) pairs in stored order, one per row of the point partition. -/
def distancesSeries (distM : GeomPoint → Geometry → ℚ) (c : CoverageChecker)
    (user : GeomPoint) : List (ℕ × ℚ) :=
  c.points.map fun pr => (pr.1, distM user pr.2.geometry)

/-- Series.idxmin: the label of the first entry attaining the minimum value.
The 0 on the empty series is never reached (pandas raises there; the code
only calls it under nearby_mask.any()). -/
def seriesIdxmin : List (ℕ × ℚ) → ℕ
  | [] => 0
  | x :: xs => (xs.foldl (fun acc y => if y.2 < acc.2 then y else acc) x).1

/-- Series.min.  The 0 on the empty series is never reached. -/
def seriesMin : List (ℕ × ℚ) → ℚ
  | [] => 0
  | x :: xs => xs.foldl (fun acc y => min acc y.2) x.2

/-- Python round() on a float value: round half to even. -/
def roundHalfEven (q : ℚ) : ℤ :=
  if q - (⌊q⌋ : ℚ) < 1/2 then ⌊q⌋
  else if (1 : ℚ)/2 < q - (⌊q⌋ : ℚ) then ⌊q⌋ + 1
  else if ⌊q⌋ % 2 = 0 then ⌊q⌋ else ⌊q⌋ + 1

/-- round(x, 2): two decimal places. -/
def pyRound2 (q : ℚ) : ℚ := ((roundHalfEven (q * 100) : ℤ) : ℚ) / 100

/-- Point-proximity pass of check_point.  nearest_idx = distances.idxmin()
is a pandas LABEL, and self.points.iloc[nearest_idx] is POSITIONAL
indexing with that label; Except.error models the IndexError raised when
the label is out of positional range of the point partition. -/
def proxStep (distM : GeomPoint → Geometry → ℚ) (c : CoverageChecker)
    (user : GeomPoint) : Except Unit (Bool × Option MatchDetails) :=
  if c.points.isEmpty then .ok (false, none)
  else if (distancesSeries distM c user).any (fun p => decide (p.2 ≤ COVERAGE_RADIUS_KM * 1000)) then
    match c.points[seriesIdxmin (distancesSeries distM c user)]? with
    | none => .error ()
    | some nearest =>
      .ok (true, some { name := nearest.2.name, description := nearest.2.description,
                        match_type := "Tower Proximity",
                        distance_km := some (pyRound2 (seriesMin (distancesSeries distM c user) / 1000)) })
  else .ok (false, none)

/-- CoverageChecker.check_point(lat, lon), parameterized over the shapely
containment test and the projected-distance library call (meters between
the projections of the user point and of a stored geometry). -/
def check_point (shContains : Geometry → GeomPoint → Bool)
    (distM : GeomPoint → Geometry → ℚ) (c : CoverageChecker)
    (lat lon : ℚ) : Except Unit (Bool × Option MatchDetails) :=
  match polyStep shContains c { lon := lon, lat := lat } with
  | some hit =>
    .ok (true, some { name := hit.2.name, description := hit.2.description,
                      match_type := "Inside Polygon Coverage", distance_km := none })
  | none => proxStep distM c { lon := lon, lat := lat }

/-- First two components of a coordinate tuple when both are numeric;
none for shorter or non-numeric-headed tuples. -/
def firstTwoNumeric : List Comp → Option (ℚ × ℚ)
  | .numeric x :: .numeric y :: _ => some (x, y)
  | _ => none

/-- A tuple on which the parse loop cannot raise: fewer than two
components (skipped), or the first two components numeric. -/
def headTwoNumeric : List Comp → Bool
  | .numeric _ :: .numeric _ :: _ => true
  | _ :: _ :: _ => false
  | _ => true

/-- A far-away coverage polygon (a square around (10..11, 10..11) degrees). -/
def recPoly : GeometryRecord :=
  { name := "P", description := "",
    geometry := Geometry.polygon [⟨10, 10⟩, ⟨11, 10⟩, ⟨11, 11⟩, ⟨10, 11⟩] }

/-- A tower 0.01 degrees of longitude east of the origin (about 1.11 km
in EPSG:3857 at the equator). -/
def recA : GeometryRecord := { name := "A", description := "", geometry := Geometry.point ⟨1/100, 0⟩ }

/-- A tower 0.03 degrees of longitude east of the origin (about 3.34 km). -/
def recB : GeometryRecord := { name := "B", description := "", geometry := Geometry.point ⟨3/100, 0⟩ }

/-- Index whose gdf holds a polygon row before the point rows, so the point
partition keeps gdf labels 1 and 2 at positions 0 and 1. -/
def checkerMixed : CoverageChecker := CoverageChecker.init [recPoly, recA, recB]

/-- Index with a polygon row and then a single point row (label 1, position 0). -/
def checkerCrash : CoverageChecker := CoverageChecker.init [recPoly, recA]

/-- Index holding only the two point rows, labels equal to positions. -/
def checkerPoints : CoverageChecker := CoverageChecker.init [recA, recB]

/-- Index built from an empty frame. -/
def checkerEmpty : CoverageChecker := CoverageChecker.init []

/-- Containment test returning false everywhere: the query point lies in no
stored polygon (as shapely reports for a point far outside recPoly). -/
def containsNever : Geometry → GeomPoint → Bool := fun _ _ => false

/-- Containment test returning true everywhere: the query point lies inside
every stored polygon. -/
def containsAll : Geometry → GeomPoint → Bool := fun _ _ => true

/-- Concrete instance of the projected-distance library call, exact for
equatorial data: EPSG:3857 gives x = lon·111319.49.. m at lat 0; modelled
as meters = |Δlon|·111319. -/
def distEquator : GeomPoint → Geometry → ℚ := fun u g =>
  match g with
  | .point p => (if u.lon ≤ p.lon then p.lon - u.lon else u.lon - p.lon) * 111319
  | .polygon _ => 0

/-- The details dict check_point builds for the proximity hit on
checkerPoints at the origin. -/
def dProx : MatchDetails :=
  { name := "A", description := "", match_type := "Tower Proximity", distance_km := some (111/100) }

/-- A placemark whose point coordinates contain a tuple with a non-numeric
first component among three tuples. -/
def pmBad : Placemark :=
  { name := some ("T"), description := none,
    point := some { coordinates := some { text :=
      [[.numeric 1, .numeric 2], [.nonNumeric, .numeric 5], [.numeric 3, .numeric 4]] } },
    polygon := none }

/-- A coordinate text of two tuples, the first with a third component. -/
def ctTwoTuples : CoordTag :=
  { text := [[.numeric 5, .numeric 6, .numeric 99], [.numeric 7, .numeric 8]] }

/-- A placemark with only a point geometry tag and two coordinate tuples. -/
def pmTwoTuples : Placemark :=
  { name := some ("T1"), description := some ("d"),
    point := some { coordinates := some ctTwoTuples }, polygon := none }

/-- A placemark carrying both a valid single-point geometry and a valid
polygon geometry (outer ring of four tuples). -/
def pmBoth : Placemark :=
  { name := some ("PB"), description := none,
    point := some { coordinates := some { text := [[.numeric 1, .numeric 2]] } },
    polygon := some { outerBoundaryIs := some { coordinates := some { text :=
      [[.numeric 0, .numeric 0], [.numeric 4, .numeric 0],
       [.numeric 4, .numeric 4], [.numeric 0, .numeric 4]] } } } }

/-- A valid archive whose only entry is not a .kml document. -/
def archiveNoKml : Archive := { entries := [{ name := "doc.txt", placemarks := [] }] }

/-- The tuple list of pmTwoTuples' point coordinates, used standalone. -/
def tsGood : List (List Comp) :=
  [[.numeric 1, .numeric 2, .nonNumeric], [.numeric 7], [.numeric 3, .numeric 4]]

/-- Folding min over a series never exceeds the initial accumulator. -/
theorem foldl_min_le_init (xs : List (ℕ × ℚ)) (a : ℚ) :
    xs.foldl (fun acc y => min acc y.2) a ≤ a := by
  induction xs generalizing a with
  | nil => exact le_refl a
  | cons x xs ih =>
    simp only [List.foldl_cons]
    exact le_trans (ih (min a x.2)) (min_le_left a x.2)

/-- Folding min over a series is a lower bound of every member value. -/
theorem foldl_min_le_of_mem (xs : List (ℕ × ℚ)) (a : ℚ) (p : ℕ × ℚ) (hp : p ∈ xs) :
    xs.foldl (fun acc y => min acc y.2) a ≤ p.2 := by
  induction xs generalizing a with
  | nil => cases hp
  | cons x xs ih =>
    simp only [List.foldl_cons]
    rcases List.mem_cons.mp hp with h | h
    · subst h
      exact le_trans (foldl_min_le_init xs (min a p.2)) (min_le_right a p.2)
    · exact ih (min a x.2) h

/-- Folding min over a series returns the accumulator or some member value. -/
theorem foldl_min_attained (xs : List (ℕ × ℚ)) (a : ℚ) :
    xs.foldl (fun acc y => min acc y.2) a = a ∨
      ∃ p ∈ xs, xs.foldl (fun acc y => min acc y.2) a = p.2 := by
  induction xs generalizing a with
  | nil => exact Or.inl rfl
  | cons x xs ih =>
    simp only [List.foldl_cons]
    rcases ih (min a x.2) with h | ⟨p, hp, hps⟩
    · rcases le_total a x.2 with hax | hxa
      · exact Or.inl (by rw [h, min_eq_left hax])
      · exact Or.inr ⟨x, List.mem_cons_self x xs, by rw [h, min_eq_right hxa]⟩
    · exact Or.inr ⟨p, List.mem_cons_of_mem x hp, hps⟩

/-- Series.min is a lower bound of every entry of the series. -/
theorem seriesMin_le_of_mem (l : List (ℕ × ℚ)) (p : ℕ × ℚ) (hp : p ∈ l) :
    seriesMin l ≤ p.2 := by
  cases l with
  | nil => cases hp
  | cons x xs =>
    simp only [seriesMin]
    rcases List.mem_cons.mp hp with h | h
    · subst h
      exact foldl_min_le_init xs p.2
    · exact foldl_min_le_of_mem xs x.2 p h

/-- Series.min is attained by some entry of a non-empty series. -/
theorem seriesMin_mem (l : List (ℕ × ℚ)) (hl : l ≠ []) :
    ∃ p ∈ l, p.2 = seriesMin l := by
  cases l with
  | nil => exact absurd rfl hl
  | cons x xs =>
    simp only [seriesMin]
    rcases foldl_min_attained xs x.2 with h | ⟨p, hp, hps⟩
    · exact ⟨x, List.mem_cons_self x xs, h.symm⟩
    · exact ⟨p, List.mem_cons_of_mem x hp, hps.symm⟩

/-- Claim C1: the claim says the matched record is the nearest stored point
(first on ties, in stored order).  The code computes nearest_idx with
Series.idxmin, a pandas index LABEL, and then reads self.points.iloc
with it, which is POSITIONAL, so when a polygon row precedes the point
rows in the gdf the returned record is not the nearest: here the minimum
distance is attained (uniquely) by tower A, yet the record returned is
tower B. -/
theorem c1_nearest_record_bug :
    check_point containsNever distEquator checkerMixed 0 0
      = .ok (true, some { name := "B", description := "", match_type := "Tower Proximity",
                          distance_km := some (111/100) }) ∧
    seriesMin (distancesSeries distEquator checkerMixed { lon := 0, lat := 0 })
      = distEquator { lon := 0, lat := 0 } recA.geometry ∧
    distEquator { lon := 0, lat := 0 } recA.geometry
      < distEquator { lon := 0, lat := 0 } recB.geometry := by
  have hpoly : checkerMixed.polygons = [(0, recPoly)] := by
    simp [checkerMixed, CoverageChecker.init, recPoly, recA, recB, geom_type,
      List.enum, List.enumFrom, List.filter]
  have hpts : checkerMixed.points = [(1, recA), (2, recB)] := by
    simp [checkerMixed, CoverageChecker.init, recPoly, recA, recB, geom_type,
      List.enum, List.enumFrom, List.filter]
  refine ⟨?_, ?_, ?_⟩
  · simp only [check_point, polyStep, proxStep, distancesSeries, hpoly, hpts]
    norm_num [seriesIdxmin, seriesMin, pyRound2, roundHalfEven, COVERAGE_RADIUS_KM,
      recA, recB, containsNever, distEquator, Int.fract, List.find?]
  · simp only [distancesSeries, hpts]
    norm_num [seriesMin, recA, recB, distEquator]
  · norm_num [recA, recB, distEquator]

/-- Claim C2: the claim says check_point never raises on well-formed numeric
input.  With a polygon row stored before the single point row, idxmin
returns label 1 while the point partition has only position 0, so
self.points.iloc[1] raises IndexError (modelled as Except.error). -/
theorem c2_index_error_bug :
    check_point containsNever distEquator checkerCrash 0 0 = .error () := by
  have hpoly : checkerCrash.polygons = [(0, recPoly)] := by
    simp [checkerCrash, CoverageChecker.init, recPoly, recA, geom_type,
      List.enum, List.enumFrom, List.filter]
  have hpts : checkerCrash.points = [(1, recA)] := by
    simp [checkerCrash, CoverageChecker.init, recPoly, recA, geom_type,
      List.enum, List.enumFrom, List.filter]
  simp only [check_point, polyStep, proxStep, distancesSeries, hpoly, hpts]
  norm_num [seriesIdxmin, seriesMin, pyRound2, roundHalfEven, COVERAGE_RADIUS_KM,
    recA, containsNever, distEquator, Int.fract, List.find?]

/-- Claim C3: if at least one stored polygon contains the query point, the
result is covered with the details of the FIRST containing polygon in
stored order (List.find? on the polygon partition), with the polygon
match_type and no distance_km — never a proximity result. -/
theorem c3_polygon_first_match (shContains : Geometry → GeomPoint → Bool)
    (distM : GeomPoint → Geometry → ℚ) (c : CoverageChecker) (lat lon : ℚ)
    (h : ∃ pr ∈ c.polygons, shContains pr.2.geometry { lon := lon, lat := lat } = true) :
    check_point shContains distM c lat lon =
      .ok (true, (c.polygons.find? fun r => shContains r.2.geometry { lon := lon, lat := lat }).map
        fun hit => { name := hit.2.name, description := hit.2.description,
                     match_type := "Inside Polygon Coverage", distance_km := none }) := by
  obtain ⟨pr, hpr, hc⟩ := h
  have hne : c.polygons.isEmpty = false :=
    List.isEmpty_eq_false.mpr (List.ne_nil_of_mem hpr)
  have hsome : (c.polygons.find? fun r => shContains r.2.geometry { lon := lon, lat := lat }).isSome :=
    List.find?_isSome.mpr ⟨pr, hpr, hc⟩
  obtain ⟨hit, hhit⟩ := Option.isSome_iff_exists.mp hsome
  simp [check_point, polyStep, hne, hhit]

/-- Claim C3 witness on a concrete index and containment test. -/
theorem c3_polygon_first_match_witness :
    (∃ pr ∈ checkerMixed.polygons, containsAll pr.2.geometry { lon := (0:ℚ), lat := (0:ℚ) } = true) ∧
    check_point containsAll distEquator checkerMixed 0 0 =
      .ok (true, (checkerMixed.polygons.find? fun r => containsAll r.2.geometry { lon := 0, lat := 0 }).map
        fun hit => { name := hit.2.name, description := hit.2.description,
                     match_type := "Inside Polygon Coverage", distance_km := none }) := by
  have hmem : (0, recPoly) ∈ checkerMixed.polygons := by
    simp [checkerMixed, CoverageChecker.init, recPoly, recA, recB, geom_type,
      List.enum, List.enumFrom, List.filter]
  exact ⟨⟨(0, recPoly), hmem, rfl⟩,
    c3_polygon_first_match containsAll distEquator checkerMixed 0 0 ⟨(0, recPoly), hmem, rfl⟩⟩

/-- Claim C4: whenever check_point returns a details dict, the dict carries
distance_km exactly when its match_type is the proximity one, and then
distance_km is round(m/1000, 2) where m is the true minimum of the
projected distances to the stored points (a lower bound attained by some
stored point); every other details dict has no distance_km key. -/
theorem c4_distance_reported (shContains : Geometry → GeomPoint → Bool)
    (distM : GeomPoint → Geometry → ℚ) (c : CoverageChecker) (lat lon : ℚ)
    (b : Bool) (d : MatchDetails)
    (h : check_point shContains distM c lat lon = .ok (b, some d)) :
    (d.match_type = "Tower Proximity" →
      d.distance_km = some (pyRound2 (seriesMin (distancesSeries distM c { lon := lon, lat := lat }) / 1000)) ∧
      (∀ pr ∈ c.points,
        seriesMin (distancesSeries distM c { lon := lon, lat := lat }) ≤
          distM { lon := lon, lat := lat } pr.2.geometry) ∧
      (∃ pr ∈ c.points,
        distM { lon := lon, lat := lat } pr.2.geometry =
          seriesMin (distancesSeries distM c { lon := lon, lat := lat }))) ∧
    (d.match_type ≠ "Tower Proximity" → d.distance_km = none) := by
  simp only [check_point] at h
  cases hp : polyStep shContains c { lon := lon, lat := lat } with
  | some hit =>
    rw [hp] at h
    simp only [Except.ok.injEq, Prod.mk.injEq, Option.some.injEq] at h
    obtain ⟨hb, hd⟩ := h
    subst hd
    refine ⟨fun hmt => ?_, fun _ => rfl⟩
    simp at hmt
  | none =>
    rw [hp] at h
    simp only [proxStep] at h
    split at h
    · simp at h
    · rename_i hempty
      split at h
      · split at h
        · simp at h
        · rename_i nearest hget
          simp only [Except.ok.injEq, Prod.mk.injEq, Option.some.injEq] at h
          obtain ⟨hb, hd⟩ := h
          subst hd
          constructor
          · intro _
            refine ⟨rfl, ?_, ?_⟩
            · intro pr hpr
              exact seriesMin_le_of_mem _ _
                (List.mem_map_of_mem (fun pr => (pr.1, distM { lon := lon, lat := lat } pr.2.geometry)) hpr)
            · have hcne : c.points ≠ [] := fun hnil => hempty (by rw [hnil]; rfl)
              have hne : distancesSeries distM c { lon := lon, lat := lat } ≠ [] := by
                simp only [distancesSeries]
                exact fun hm => hcne (List.map_eq_nil_iff.mp hm)
              obtain ⟨p, hpmem, hpeq⟩ := seriesMin_mem _ hne
              obtain ⟨pr, hpr, hfpr⟩ := List.mem_map.mp hpmem
              refine ⟨pr, hpr, ?_⟩
              have h2 := congrArg Prod.snd hfpr
              simp only at h2
              rw [h2, hpeq]
          · intro hn
            exact absurd rfl hn
      · simp at h

/-- Claim C4 witness on a points-only index where the proximity branch fires. -/
theorem c4_distance_reported_witness :
    (dProx.match_type = "Tower Proximity" →
      dProx.distance_km = some (pyRound2 (seriesMin (distancesSeries distEquator checkerPoints { lon := 0, lat := 0 }) / 1000)) ∧
      (∀ pr ∈ checkerPoints.points,
        seriesMin (distancesSeries distEquator checkerPoints { lon := 0, lat := 0 }) ≤
          distEquator { lon := 0, lat := 0 } pr.2.geometry) ∧
      (∃ pr ∈ checkerPoints.points,
        distEquator { lon := 0, lat := 0 } pr.2.geometry =
          seriesMin (distancesSeries distEquator checkerPoints { lon := 0, lat := 0 }))) ∧
    (dProx.match_type ≠ "Tower Proximity" → dProx.distance_km = none) := by
  refine c4_distance_reported containsNever distEquator checkerPoints 0 0 true dProx ?_
  have hpoly : checkerPoints.polygons = [] := by
    simp [checkerPoints, CoverageChecker.init, recA, recB, geom_type,
      List.enum, List.enumFrom, List.filter]
  have hpts : checkerPoints.points = [(0, recA), (1, recB)] := by
    simp [checkerPoints, CoverageChecker.init, recA, recB, geom_type,
      List.enum, List.enumFrom, List.filter]
  simp only [check_point, polyStep, proxStep, distancesSeries, hpoly, hpts, dProx]
  norm_num [seriesIdxmin, seriesMin, pyRound2, roundHalfEven, COVERAGE_RADIUS_KM,
    recA, recB, containsNever, distEquator, Int.fract, List.find?]

/-- Claim C5: with both partitions empty, every query returns uncovered with
no details (no match kind, no record). -/
theorem c5_empty_index_uncovered (shContains : Geometry → GeomPoint → Bool)
    (distM : GeomPoint → Geometry → ℚ) (c : CoverageChecker) (lat lon : ℚ)
    (hp : c.polygons = []) (hq : c.points = []) :
    check_point shContains distM c lat lon = .ok (false, none) := by
  simp [check_point, polyStep, proxStep, hp, hq]

/-- Claim C5 witness: the index built from an empty frame. -/
theorem c5_empty_index_uncovered_witness :
    (checkerEmpty.polygons = [] ∧ checkerEmpty.points = []) ∧
    check_point containsNever distEquator checkerEmpty 0 0 = .ok (false, none) :=
  ⟨⟨rfl, rfl⟩, c5_empty_index_uncovered containsNever distEquator checkerEmpty 0 0 rfl rfl⟩

/-- Claim C6 counterexample: the claim says a tuple with fewer than two
numeric components is discarded from the list while the rest is parsed
and the element kept.  On a tuple with two components whose first is not
numeric, float() raises, the whole parse aborts, and the per-element
handler drops the containing element. -/
theorem c6_nonnumeric_tuple_cex :
    parse_coords_string [[.numeric 1, .numeric 2], [.nonNumeric, .numeric 5], [.numeric 3, .numeric 4]]
      = .error () ∧
    loadFeature pmBad = none :=
  ⟨rfl, rfl⟩

/-- Claim C6 (amended): only the first two components of each tuple are
used and a tuple with fewer than two components is discarded while the
remaining tuples are still parsed, provided every tuple with at least two
components has numeric first two components; a non-numeric component
among the first two makes the whole parse raise (and the containing
element is then dropped by the caller). -/
theorem c6_parse_first_two_amended (ts : List (List Comp))
    (h : ∀ t ∈ ts, headTwoNumeric t = true) :
    parse_coords_string ts = .ok (ts.filterMap firstTwoNumeric) := by
  induction ts with
  | nil => rfl
  | cons t rest ih =>
    have ht := h t (List.mem_cons_self t rest)
    have hrest := ih (fun u hu => h u (List.mem_cons_of_mem t hu))
    rcases t with _ | ⟨c0, t1⟩
    · simp only [parse_coords_string, List.filterMap_cons, firstTwoNumeric]
      exact hrest
    · rcases t1 with _ | ⟨c1, tail⟩
      · cases c0 with
        | numeric q0 =>
          simp only [parse_coords_string, List.filterMap_cons, firstTwoNumeric]
          exact hrest
        | nonNumeric =>
          simp only [parse_coords_string, List.filterMap_cons, firstTwoNumeric]
          exact hrest
      · cases c0 with
        | numeric q0 =>
          cases c1 with
          | numeric q1 =>
            simp only [parse_coords_string, pyFloat, hrest, List.filterMap_cons, firstTwoNumeric]
          | nonNumeric =>
            simp [headTwoNumeric] at ht
        | nonNumeric =>
          simp [headTwoNumeric] at ht

/-- Claim C6 (amended) witness: a third component is never touched even when
non-numeric, and a one-component tuple is skipped while the rest parses. -/
theorem c6_parse_first_two_amended_witness :
    (∀ t ∈ tsGood, headTwoNumeric t = true) ∧
    parse_coords_string tsGood = .ok (tsGood.filterMap firstTwoNumeric) :=
  ⟨by decide, c6_parse_first_two_amended tsGood (by decide)⟩

/-- Claim C7: loading fails with the archive-level missing-file error when
the file does not exist, and returns an empty record list (not an error)
when the archive is valid but holds no .kml member. -/
theorem c7_load_archive_contract (z : Archive)
    (h : ∀ f ∈ z.entries, strEndsWith f.name (".kml") = false) :
    load_kmz_manually none = .error .fileNotFound ∧
    load_kmz_manually (some z) = .ok [] := by
  refine ⟨rfl, ?_⟩
  have hfil : z.entries.filter (fun f => strEndsWith f.name (".kml")) = [] := by
    rw [List.filter_eq_nil_iff]
    intro a ha
    rw [h a ha]
    exact Bool.false_ne_true
  simp [load_kmz_manually, hfil]

/-- Claim C7 witness: a one-member archive with no .kml entry. -/
theorem c7_load_archive_contract_witness :
    (∀ f ∈ archiveNoKml.entries, strEndsWith f.name (".kml") = false) ∧
    (load_kmz_manually none = .error .fileNotFound ∧
     load_kmz_manually (some archiveNoKml) = .ok []) :=
  ⟨by decide, c7_load_archive_contract archiveNoKml (by decide)⟩

/-- Claim C8 counterexample: the claim says any placemark with a point
geometry tag whose coordinates parse non-empty yields a record located at
the first tuple; but when a valid polygon tag is also present the polygon
overwrites the point geometry. -/
theorem c8_polygon_overrides_point_cex :
    (loadFeature pmBoth).map (fun r => r.geometry)
      = some (Geometry.polygon [⟨0, 0⟩, ⟨4, 0⟩, ⟨4, 4⟩, ⟨0, 4⟩]) ∧
    Geometry.polygon [⟨0, 0⟩, ⟨4, 0⟩, ⟨4, 4⟩, ⟨0, 4⟩] ≠ Geometry.point ⟨1, 2⟩ :=
  ⟨rfl, by decide⟩

/-- Claim C8 (amended): for a placemark with a single-point geometry tag
whose coordinate string parses to a non-empty list, and no polygon
geometry tag, the loaded record is a point at the FIRST coordinate tuple,
regardless of how many tuples follow. -/
theorem c8_point_first_tuple_amended (pm : Placemark) (ct : CoordTag)
    (c : ℚ × ℚ) (cs : List (ℚ × ℚ))
    (hpt : pm.point = some { coordinates := some ct })
    (hpoly : pm.polygon = none)
    (hparse : parse_coords_string ct.text = .ok (c :: cs)) :
    loadFeature pm = some { name := pm.name.getD ("Unknown"),
                            description := pm.description.getD (""),
                            geometry := Geometry.point { lon := c.1, lat := c.2 } } := by
  simp [loadFeature, processPlacemark, hpt, hpoly, hparse]

/-- Claim C8 (amended) witness: two tuples, record at the first. -/
theorem c8_point_first_tuple_amended_witness :
    (pmTwoTuples.point = some { coordinates := some ctTwoTuples } ∧
     pmTwoTuples.polygon = none ∧
     parse_coords_string ctTwoTuples.text = .ok ((5, 6) :: [(7, 8)])) ∧
    loadFeature pmTwoTuples = some { name := pmTwoTuples.name.getD ("Unknown"),
                                     description := pmTwoTuples.description.getD (""),
                                     geometry := Geometry.point { lon := (5 : ℚ), lat := (6 : ℚ) } } :=
  ⟨⟨rfl, rfl, rfl⟩,
    c8_point_first_tuple_amended pmTwoTuples ctTwoTuples (5, 6) [(7, 8)] rfl rfl rfl⟩

/-- Claim C9: check_point is deterministic — identical coordinates against
an unchanged index give identical results. -/
theorem c9_query_deterministic (shContains : Geometry → GeomPoint → Bool)
    (distM : GeomPoint → Geometry → ℚ) (c : CoverageChecker)
    (lat1 lon1 lat2 lon2 : ℚ) (hlat : lat1 = lat2) (hlon : lon1 = lon2) :
    check_point shContains distM c lat1 lon1 = check_point shContains distM c lat2 lon2 := by
  rw [hlat, hlon]

/-- Claim C9 witness at a concrete index and input. -/
theorem c9_query_deterministic_witness :
    ((0 : ℚ) = 0 ∧ (0 : ℚ) = 0) ∧
    check_point containsNever distEquator checkerMixed 0 0
      = check_point containsNever distEquator checkerMixed 0 0 :=
  ⟨⟨rfl, rfl⟩, c9_query_deterministic containsNever distEquator checkerMixed 0 0 0 0 rfl rfl⟩

/-- Claim C10: a placemark with both a valid single-point geometry tag and a
valid polygon geometry tag (outer ring parsing to at least 3 tuples)
loads as a record whose single geometry is the polygon; the point
geometry is discarded. -/
theorem c10_polygon_wins_both_tags (pm : Placemark) (ct1 ct2 : CoordTag)
    (c : ℚ × ℚ) (cs : List (ℚ × ℚ)) (ring : List (ℚ × ℚ))
    (hpt : pm.point = some { coordinates := some ct1 })
    (hpoly : pm.polygon = some { outerBoundaryIs := some { coordinates := some ct2 } })
    (hparse1 : parse_coords_string ct1.text = .ok (c :: cs))
    (hparse2 : parse_coords_string ct2.text = .ok ring)
    (hlen : 3 ≤ ring.length) :
    loadFeature pm = some { name := pm.name.getD ("Unknown"),
                            description := pm.description.getD (""),
                            geometry := Geometry.polygon (ring.map fun q => { lon := q.1, lat := q.2 }) } := by
  simp [loadFeature, processPlacemark, hpt, hpoly, hparse1, hparse2, hlen]

/-- Claim C10 witness: pmBoth loads as its polygon. -/
theorem c10_polygon_wins_both_tags_witness :
    (pmBoth.point = some { coordinates := some { text := [[.numeric 1, .numeric 2]] } } ∧
     pmBoth.polygon = some { outerBoundaryIs := some { coordinates := some { text :=
       [[.numeric 0, .numeric 0], [.numeric 4, .numeric 0],
        [.numeric 4, .numeric 4], [.numeric 0, .numeric 4]] } } } ∧
     3 ≤ ([((0:ℚ), (0:ℚ)), (4, 0), (4, 4), (0, 4)] : List (ℚ × ℚ)).length) ∧
    loadFeature pmBoth = some { name := pmBoth.name.getD ("Unknown"),
                                description := pmBoth.description.getD (""),
                                geometry := Geometry.polygon
                                  (([((0:ℚ), (0:ℚ)), (4, 0), (4, 4), (0, 4)] : List (ℚ × ℚ)).map
                                    fun q => { lon := q.1, lat := q.2 }) } :=
  ⟨⟨rfl, rfl, by decide⟩,
    c10_polygon_wins_both_tags pmBoth { text := [[.numeric 1, .numeric 2]] }
      { text := [[.numeric 0, .numeric 0], [.numeric 4, .numeric 0],
                 [.numeric 4, .numeric 4], [.numeric 0, .numeric 4]] }
      (1, 2) [] [(0, 0), (4, 0), (4, 4), (0, 4)] rfl rfl rfl rfl (by decide)⟩

end CoverageApi
